import Mathlib

/-!
QuarterLife bot AI: perception-to-target resolution and the attack task.

A shallow embedding of `src/QL/QLAIController.cpp` and `src/QL/QLBTTaskAttack.cpp`.

Engine objects are referred to by handles (`ActorId`, the address a raw pointer
holds).  A `World` maps a handle to the object living there, or to `none` when
there is no object (null pointer, or an actor that has been destroyed).  A weak
pointer is an optional handle; it resolves exactly when the object still exists.

Float payloads (positions, velocities, rotations, speeds) are carried as
integers: the embedded code only moves them around and never computes on them.
-/

namespace QL

/-! ## Data model -/

/-- Handle of an engine object. -/
abbrev ActorId := Nat

/-- The team attitude enumeration `ETeamAttitude::Type`. -/
inductive ETeamAttitude where
  | Friendly
  | Neutral
  | Hostile
  deriving DecidableEq, Repr

/-- The sense channels configured in the constructor of `AQLAIController`. -/
inductive ESense where
  | Sight
  | Hearing
  | Prediction
  | Damage
  | Team
  deriving DecidableEq, Repr

/-- One entry of `FActorPerceptionBlueprintInfo::LastSensedStimuli`:
`SenseType` is `Stimulus.Type`, `bSuccessfullySensed` is `WasSuccessfullySensed()`,
`bExpired` is `IsExpired()`. -/
structure FAIStimulus where
  SenseType : ESense
  bSuccessfullySensed : Bool
  bExpired : Bool
  deriving DecidableEq, Repr

/-- A world position or direction (`FVector`). -/
structure FVector where
  X : Int
  Y : Int
  Z : Int
  deriving DecidableEq, Repr

/-- A rotation (`FRotator`). -/
structure FRotator where
  Pitch : Int
  Yaw : Int
  Roll : Int
  deriving DecidableEq, Repr

/-- A weapon as `ExecuteTask` sees it: `IsProjectileWeapon()` and `GetProjectileSpeed()`. -/
structure AQLWeapon where
  bProjectileWeapon : Bool
  ProjectileSpeed : Int
  deriving DecidableEq, Repr

/-- The controller of a character as `GetTeamAttitudeTowards` sees it: `TeamAgent` is the
result of `Cast<IGenericTeamAgentInterface>` followed by `GetGenericTeamId()`; `none` when
the controller does not implement the team interface. -/
structure AController where
  TeamAgent : Option Nat
  deriving DecidableEq, Repr

/-- An `AQLCharacter` as the embedded code sees it.  `Controller` is `GetController()`
(`none` for a null controller), `bAlive` is `IsAlive()`, `bVisible` is `QLGetVisibility()`,
and `CurrentWeaponAfter name` is what `GetCurrentWeapon()` returns right after
`SetCurrentWeapon(name)`. -/
structure AQLCharacter where
  Controller : Option AController
  bAlive : Bool
  bVisible : Bool
  ActorLocation : FVector
  Velocity : FVector
  TargetLocation : FVector
  CurrentWeaponAfter : String → Option AQLWeapon

/-- An actor: `AsQLCharacter` is the result of `Cast<AQLCharacter>` on it. -/
structure AActor where
  AsQLCharacter : Option AQLCharacter

/-- The objects that currently exist. -/
structure World where
  Actors : ActorId → Option AActor

/-- The two blackboard entries written by the controller. -/
structure UBlackboardComponent where
  CanAttackTarget : Bool
  Target : Option ActorId
  deriving DecidableEq, Repr

/-- The state of an `AQLAIController`.  `QLTarget` is the weak pointer to the target,
`Blackboard` the (possibly null) blackboard, `PerceptionComponent a` the stimuli that
`GetActorsPerception(a, Info)` puts in `Info.LastSensedStimuli`, `Pawn` is `GetPawn()`
and `ControlRotation` is `GetControlRotation()`. -/
structure AQLAIController where
  QLTeamId : Nat
  QLTarget : Option ActorId
  Blackboard : Option UBlackboardComponent
  PerceptionComponent : ActorId → List FAIStimulus
  Pawn : Option ActorId
  ControlRotation : FRotator

/-! ## `QLAIController.cpp` -/

/-- The cast `Cast<AQLCharacter>(Target)` on a raw pointer: null for a null pointer and for an
actor of another class. -/
def CastQLCharacter (w : World) (Target : ActorId) : Option AQLCharacter :=
  match w.Actors Target with
  | none => none
  | some actor => actor.AsQLCharacter

/-- Resolution of the weak pointer `QLTarget`: the character it points to while that
character exists. -/
def ResolveTarget (w : World) (p : Option ActorId) : Option AQLCharacter :=
  match p with
  | none => none
  | some t => CastQLCharacter w t

/-- The test `QLTarget.IsValid()`. -/
def IsValid (w : World) (p : Option ActorId) : Bool :=
  (ResolveTarget w p).isSome

/-- The method `AQLAIController::GetTeamAttitudeTowards(const AActor& Other) const`. -/
def GetTeamAttitudeTowards (_self : AQLAIController) (Other : AActor) : ETeamAttitude :=
  match Other.AsQLCharacter with
  | none => ETeamAttitude.Neutral
  | some QLCharacter =>
    match QLCharacter.Controller with
    | none => ETeamAttitude.Neutral
    | some controller =>
      match controller.TeamAgent with
      | none => ETeamAttitude.Neutral
      | some teamId =>
        -- in QL, 0 is reserved for the player team id
        if teamId = 0 then ETeamAttitude.Hostile else ETeamAttitude.Friendly

/-- Body of the loop over `Info.LastSensedStimuli`: the new value of `bAnythingSensed`. -/
def ScanStimulus (bAnythingSensed : Bool) (Stimulus : FAIStimulus) : Bool :=
  if Stimulus.SenseType = ESense.Sight then
    if Stimulus.bSuccessfullySensed then true else bAnythingSensed
  else if Stimulus.SenseType = ESense.Damage then
    if Stimulus.bSuccessfullySensed && !Stimulus.bExpired then true else bAnythingSensed
  else bAnythingSensed

/-- The value of `bAnythingSensed` after the loop over the stimuli of one actor. -/
def AnythingSensed (LastSensedStimuli : List FAIStimulus) : Bool :=
  LastSensedStimuli.foldl ScanStimulus false

/-- Body of the loop over `UpdatedActors` in `OnPerceptionUpdatedImpl`. -/
def PerceiveActor (w : World) (self : AQLAIController) (Target : ActorId) : AQLAIController :=
  match w.Actors Target with
  | none => self
  | some actor =>
    match actor.AsQLCharacter with
    | none => self
    | some _ =>
      if GetTeamAttitudeTowards self actor ≠ ETeamAttitude.Hostile then self
      else if AnythingSensed (self.PerceptionComponent Target) then
        { self with QLTarget := some Target }
      else
        { self with QLTarget := none }

/-- The value `bResult` computed at the end of `OnPerceptionUpdatedImpl`:
`QLTarget.IsValid() && QLTarget->QLGetVisibility() && QLTarget->IsAlive()`. -/
def CanAttack (w : World) (p : Option ActorId) : Bool :=
  match ResolveTarget w p with
  | none => false
  | some ch => ch.bVisible && ch.bAlive

/-- The block `if (Blackboard) ...` at the end of `OnPerceptionUpdatedImpl`. -/
def UpdateBlackboard (w : World) (self : AQLAIController) : AQLAIController :=
  match self.Blackboard with
  | none => self
  | some bb =>
    let bResult := CanAttack w self.QLTarget
    let bb1 : UBlackboardComponent := { bb with CanAttackTarget := bResult }
    let bb2 : UBlackboardComponent :=
      if IsValid w self.QLTarget then { bb1 with Target := self.QLTarget } else bb1
    { self with Blackboard := some bb2 }

/-- The method `AQLAIController::OnPerceptionUpdatedImpl(const TArray<AActor*>& UpdatedActors)`. -/
def OnPerceptionUpdatedImpl (w : World) (self : AQLAIController)
    (UpdatedActors : List ActorId) : AQLAIController :=
  UpdateBlackboard w (UpdatedActors.foldl (PerceiveActor w) self)

/-- The method `AQLAIController::GetTarget()`, that is `QLTarget.Get()`: the character the weak
pointer resolves to, null when it does not resolve. -/
def GetTarget (w : World) (self : AQLAIController) : Option AQLCharacter :=
  ResolveTarget w self.QLTarget

/-! ## `QLBTTaskAttack.cpp` -/

/-- The result enumeration `EBTNodeResult::Type`. -/
inductive EBTNodeResult where
  | Succeeded
  | Failed
  | Aborted
  | InProgress
  deriving DecidableEq, Repr

/-- What `OwnerComp.GetAIOwner()` points to: a QuarterLife controller, or a controller of
another class, on which `Cast<AQLAIController>` yields null. -/
inductive AAIController where
  | QLAIController (c : AQLAIController)
  | OtherAIController

/-- The behaviour tree component handed to the task: `AIOwner` is `GetAIOwner()` and
`BlackboardComponent` is `GetBlackboardComponent()`, either of which may be null. -/
structure UBehaviorTreeComponent where
  AIOwner : Option AAIController
  BlackboardComponent : Option UBlackboardComponent

/-- The calls `ExecuteTask` makes on the controller and on the bot, in program order. -/
inductive Effect where
  | SetCurrentWeapon (WeaponName : String)
  | SetFocalPoint (FP : FVector)
  | SetWorldRotation (NewRotation : FRotator)
  | OnFire
  deriving DecidableEq, Repr

/-- What a call of `QLUtility::MakePredictionShot` leaves behind: `bFound` is its report
(false: no intercept), `WhereToAim` and `TimeProjectileHitsEnemy` are the contents of the two
reference parameters after the call. -/
structure PredictionShot where
  bFound : Bool
  WhereToAim : FVector
  TimeProjectileHitsEnemy : Int
  deriving DecidableEq, Repr

/-- The helper `QLUtility::MakePredictionShot`, whose body is not part of the embedded files.
Arguments: the content of `WhereToAim` before the call, `MyLocation`, `EnemyLocation`,
`EnemyVelocity`, `ProjectileSpeed`. -/
abbrev LeadPredictor := FVector → FVector → FVector → FVector → Int → PredictionShot

/-- The method `UQLBTTaskAttack::ExecuteTask`: the reported result and the calls made.
`Indeterminate` is the content of the default-constructed local `FVector WhereToAim`.
The result of the leading call `Super::ExecuteTask` is discarded by the source, and the value
reported by `MakePredictionShot` is discarded as well: only `WhereToAim` is read back. -/
def ExecuteTask (MakePredictionShot : LeadPredictor) (Indeterminate : FVector) (w : World)
    (OwnerComp : UBehaviorTreeComponent) : EBTNodeResult × List Effect :=
  match OwnerComp.AIOwner with
  | none => (EBTNodeResult.Failed, [])
  | some AAIController.OtherAIController => (EBTNodeResult.Failed, [])
  | some (AAIController.QLAIController MyController) =>
    match MyController.Pawn with
    | none => (EBTNodeResult.Failed, [])
    | some MyBot =>
      match CastQLCharacter w MyBot with
      | none => (EBTNodeResult.Failed, [])
      | some MyBotCharacter =>
        match OwnerComp.BlackboardComponent with
        | none => (EBTNodeResult.Succeeded, [])
        | some _ =>
          match GetTarget w MyController with
          | none => (EBTNodeResult.Failed, [])
          | some Target =>
            match MyBotCharacter.CurrentWeaponAfter "NailGun" with
            | none => (EBTNodeResult.Succeeded, [Effect.SetCurrentWeapon "NailGun"])
            | some CurrentWeapon =>
              let WhereToAim : FVector :=
                if CurrentWeapon.bProjectileWeapon then
                  (MakePredictionShot Indeterminate MyBotCharacter.ActorLocation
                    Target.ActorLocation Target.Velocity CurrentWeapon.ProjectileSpeed).WhereToAim
                else Target.TargetLocation
              (EBTNodeResult.Succeeded,
                [Effect.SetCurrentWeapon "NailGun", Effect.SetFocalPoint WhereToAim,
                 Effect.SetWorldRotation MyController.ControlRotation, Effect.OnFire])

/-! ## Vocabulary of the specification -/

/-- A hostile agent: an existing actor that is a combat character and towards which the
controller's attitude is Hostile. -/
def IsHostile (w : World) (self : AQLAIController) (a : ActorId) : Bool :=
  match w.Actors a with
  | none => false
  | some actor =>
    actor.AsQLCharacter.isSome && decide (GetTeamAttitudeTowards self actor = ETeamAttitude.Hostile)

/-- A stimulus that counts for the sensed verdict: a successful Sight stimulus, or a
successful Damage stimulus that has not expired. -/
def StimulusSenses (st : FAIStimulus) : Bool :=
  (decide (st.SenseType = ESense.Sight) && st.bSuccessfullySensed) ||
  (decide (st.SenseType = ESense.Damage) && st.bSuccessfullySensed && !st.bExpired)

/-- An agent is sensed when its stimulus history holds a stimulus that counts. -/
def Sensed (self : AQLAIController) (a : ActorId) : Bool :=
  (self.PerceptionComponent a).any StimulusSenses

/-- The last hostile agent of a batch, in batch order. -/
def LastHostile (w : World) (self : AQLAIController) (batch : List ActorId) : Option ActorId :=
  (batch.filter (IsHostile w self)).getLast?

/-- The target the loop over the batch leaves behind: decided by the last hostile agent of
the batch, the prior target when the batch has no hostile agent. -/
def LoopTarget (w : World) (self : AQLAIController) (batch : List ActorId) : Option ActorId :=
  match LastHostile w self batch with
  | none => self.QLTarget
  | some L => if Sensed self L then some L else none

/-- The last sensed hostile agent of a batch, in batch order. -/
def LastSensedHostile (w : World) (self : AQLAIController) (batch : List ActorId) :
    Option ActorId :=
  (batch.filter (fun a => IsHostile w self a && Sensed self a)).getLast?

/-- The valid controller and the controlled pawn of a task: the owner of the tree when it is
a QuarterLife controller whose pawn exists and is a QuarterLife character. -/
def ControlledBot (w : World) (OwnerComp : UBehaviorTreeComponent) :
    Option (AQLAIController × AQLCharacter) :=
  match OwnerComp.AIOwner with
  | some (AAIController.QLAIController c) =>
    match c.Pawn with
    | none => none
    | some b =>
      match CastQLCharacter w b with
      | none => none
      | some ch => some (c, ch)
  | _ => none

/-! ## A concrete scene -/

/-- The nail gun: a projectile weapon. -/
def nailGun : AQLWeapon := { bProjectileWeapon := true, ProjectileSpeed := 2500 }

/-- The rail gun: an instant-hit weapon. -/
def railGun : AQLWeapon := { bProjectileWeapon := false, ProjectileSpeed := 0 }

/-- A character of the given team carrying the given weapon. -/
def mkCharacter (team : Nat) (alive visible : Bool) (weapon : AQLWeapon) : AQLCharacter :=
  { Controller := some { TeamAgent := some team }
    bAlive := alive
    bVisible := visible
    ActorLocation := { X := 1000, Y := 0, Z := 0 }
    Velocity := { X := 0, Y := 500, Z := 0 }
    TargetLocation := { X := 1000, Y := 0, Z := 50 }
    CurrentWeaponAfter := fun _ => some weapon }

/-- Two players (handles 1 and 2, team 0), the bot itself (handle 3, team 1), a dead player
(handle 5) and a crate (handle 4, not a character). -/
def scene : World :=
  { Actors := fun a =>
      match a with
      | 1 => some { AsQLCharacter := some (mkCharacter 0 true true nailGun) }
      | 2 => some { AsQLCharacter := some (mkCharacter 0 true false nailGun) }
      | 3 => some { AsQLCharacter := some (mkCharacter 1 true true nailGun) }
      | 4 => some { AsQLCharacter := none }
      | 5 => some { AsQLCharacter := some (mkCharacter 0 false true nailGun) }
      | _ => none }

/-- The same scene with the bot carrying the rail gun. -/
def sceneRail : World :=
  { Actors := fun a =>
      match a with
      | 1 => some { AsQLCharacter := some (mkCharacter 0 true true nailGun) }
      | 3 => some { AsQLCharacter := some (mkCharacter 1 true true railGun) }
      | _ => none }

/-- Player 1 and the dead player 5 are in sight; of player 2 only a lost-sight record and
a noise remain. -/
def sceneStimuli (a : ActorId) : List FAIStimulus :=
  match a with
  | 1 => [{ SenseType := ESense.Sight, bSuccessfullySensed := true, bExpired := false }]
  | 2 => [{ SenseType := ESense.Sight, bSuccessfullySensed := false, bExpired := false },
          { SenseType := ESense.Hearing, bSuccessfullySensed := true, bExpired := false }]
  | 5 => [{ SenseType := ESense.Damage, bSuccessfullySensed := true, bExpired := false }]
  | _ => []

/-- The bot controller with the given target and blackboard. -/
def bot (target : Option ActorId) (bb : Option UBlackboardComponent) : AQLAIController :=
  { QLTeamId := 1
    QLTarget := target
    Blackboard := bb
    PerceptionComponent := sceneStimuli
    Pawn := some 3
    ControlRotation := { Pitch := 0, Yaw := 90, Roll := 0 } }

/-- The tree component of the bot, with the given target and blackboard component. -/
def botTree (target : Option ActorId) (bb : Option UBlackboardComponent) :
    UBehaviorTreeComponent :=
  { AIOwner := some (AAIController.QLAIController (bot target bb))
    BlackboardComponent := bb }

/-- A predictor that finds no intercept and writes nothing. -/
def noIntercept : LeadPredictor :=
  fun WhereToAim _ _ _ _ =>
    { bFound := false, WhereToAim := WhereToAim, TimeProjectileHitsEnemy := 0 }

/-! ## Lemmas about the two loops -/

theorem ScanStimulus_eq_or (b : Bool) (st : FAIStimulus) :
    ScanStimulus b st = (b || StimulusSenses st) := by
  cases st with
  | mk ty ok ex => cases ty <;> cases b <;> cases ok <;> cases ex <;> rfl

theorem foldl_ScanStimulus (l : List FAIStimulus) (b : Bool) :
    l.foldl ScanStimulus b = (b || l.any StimulusSenses) := by
  induction l generalizing b with
  | nil => simp
  | cons st l ih => simp [ih, ScanStimulus_eq_or, Bool.or_assoc]

theorem AnythingSensed_eq_Sensed (self : AQLAIController) (a : ActorId) :
    AnythingSensed (self.PerceptionComponent a) = Sensed self a := by
  simp [AnythingSensed, Sensed, foldl_ScanStimulus]

theorem Sensed_iff (self : AQLAIController) (a : ActorId) :
    Sensed self a = true ↔
      ∃ st ∈ self.PerceptionComponent a,
        (st.SenseType = ESense.Sight ∧ st.bSuccessfullySensed = true) ∨
        (st.SenseType = ESense.Damage ∧ st.bSuccessfullySensed = true ∧ st.bExpired = false) := by
  simp [Sensed, StimulusSenses, List.any_eq_true, and_assoc]

theorem IsHostile_iff (w : World) (self : AQLAIController) (a : ActorId) :
    IsHostile w self a = true ↔
      ∃ actor ch, w.Actors a = some actor ∧ actor.AsQLCharacter = some ch ∧
        GetTeamAttitudeTowards self actor = ETeamAttitude.Hostile := by
  unfold IsHostile
  cases h : w.Actors a with
  | none => simp
  | some actor =>
    cases hc : actor.AsQLCharacter with
    | none => simp [hc]
    | some ch => simp [hc]

theorem PerceiveActor_eq (w : World) (self : AQLAIController) (a : ActorId) :
    PerceiveActor w self a =
      if IsHostile w self a then
        { self with QLTarget := if Sensed self a then some a else none }
      else self := by
  unfold PerceiveActor IsHostile
  rw [AnythingSensed_eq_Sensed]
  cases h : w.Actors a with
  | none => simp
  | some actor =>
    cases hc : actor.AsQLCharacter with
    | none => simp [hc]
    | some ch =>
      by_cases hh : GetTeamAttitudeTowards self actor = ETeamAttitude.Hostile
      · by_cases hs : Sensed self a = true <;> simp [hc, hh, hs]
      · simp [hc, hh]

theorem LastHostile_concat (w : World) (self : AQLAIController) (l : List ActorId)
    (a : ActorId) :
    LastHostile w self (l ++ [a]) =
      if IsHostile w self a then some a else LastHostile w self l := by
  unfold LastHostile
  by_cases h : IsHostile w self a = true
  · simp [List.filter_append, h]
  · simp [List.filter_append, h]

theorem foldl_PerceiveActor (w : World) (self : AQLAIController) (batch : List ActorId) :
    batch.foldl (PerceiveActor w) self = { self with QLTarget := LoopTarget w self batch } := by
  induction batch using List.reverseRecOn with
  | nil => rfl
  | append_singleton l a ih =>
    rw [List.foldl_append, ih]
    simp only [List.foldl_cons, List.foldl_nil, PerceiveActor_eq]
    have h1 : IsHostile w { self with QLTarget := LoopTarget w self l } a = IsHostile w self a :=
      rfl
    have h2 : Sensed { self with QLTarget := LoopTarget w self l } a = Sensed self a := rfl
    rw [h1, h2]
    unfold LoopTarget
    rw [LastHostile_concat]
    by_cases h : IsHostile w self a = true
    · simp [h]
    · simp [h]

theorem UpdateBlackboard_QLTarget (w : World) (self : AQLAIController) :
    (UpdateBlackboard w self).QLTarget = self.QLTarget := by
  unfold UpdateBlackboard
  cases h : self.Blackboard <;> simp

theorem OnPerceptionUpdatedImpl_QLTarget (w : World) (self : AQLAIController)
    (batch : List ActorId) :
    (OnPerceptionUpdatedImpl w self batch).QLTarget = LoopTarget w self batch := by
  unfold OnPerceptionUpdatedImpl
  rw [UpdateBlackboard_QLTarget, foldl_PerceiveActor]

theorem OnPerceptionUpdatedImpl_Blackboard (w : World) (self : AQLAIController)
    (bb : UBlackboardComponent) (hbb : self.Blackboard = some bb) (batch : List ActorId) :
    (OnPerceptionUpdatedImpl w self batch).Blackboard =
      some { CanAttackTarget := CanAttack w (LoopTarget w self batch)
             Target := if IsValid w (LoopTarget w self batch) then LoopTarget w self batch
                       else bb.Target } := by
  unfold OnPerceptionUpdatedImpl
  rw [foldl_PerceiveActor]
  unfold UpdateBlackboard
  simp only [hbb]
  by_cases hv : IsValid w (LoopTarget w self batch) = true
  · simp [hv]
  · simp [hv]

theorem OnPerceptionUpdatedImpl_no_Blackboard (w : World) (self : AQLAIController)
    (hbb : self.Blackboard = none) (batch : List ActorId) :
    (OnPerceptionUpdatedImpl w self batch).Blackboard = none := by
  unfold OnPerceptionUpdatedImpl
  rw [foldl_PerceiveActor]
  unfold UpdateBlackboard
  simp [hbb]

theorem CanAttack_iff (w : World) (p : Option ActorId) :
    CanAttack w p = true ↔
      ∃ ch, ResolveTarget w p = some ch ∧ ch.bAlive = true ∧ ch.bVisible = true := by
  unfold CanAttack
  cases h : ResolveTarget w p with
  | none => simp
  | some ch => simp [and_comm]

theorem LoopTarget_nil (w : World) (self : AQLAIController) :
    LoopTarget w self [] = self.QLTarget := rfl

theorem LastHostile_eq_of_only (w : World) (self : AQLAIController) (batch : List ActorId)
    (H : ActorId) (hH : H ∈ batch) (hhost : IsHostile w self H = true)
    (honly : ∀ a ∈ batch, IsHostile w self a = true → a = H) :
    LastHostile w self batch = some H := by
  unfold LastHostile
  have hmem : H ∈ batch.filter (IsHostile w self) := List.mem_filter.mpr ⟨hH, hhost⟩
  cases hl : (batch.filter (IsHostile w self)).getLast? with
  | none =>
    rw [List.getLast?_eq_none_iff] at hl
    rw [hl] at hmem
    cases hmem
  | some L =>
    have hL : L ∈ batch.filter (IsHostile w self) := List.mem_of_getLast?_eq_some hl
    rw [List.mem_filter] at hL
    rw [honly L hL.1 hL.2]

/-! ## The claims -/

/-- C1: with a blackboard present, after `OnPerceptionUpdatedImpl` the published
`CanAttackTarget` flag is true exactly when the target reference resolves to a character
that is alive and visible, for every prior state and every batch; and when the stored
target is no longer alive, an update with the empty batch publishes `false`. -/
theorem canAttackTarget_iff_target_alive_visible
    (w : World) (self : AQLAIController) (bb : UBlackboardComponent)
    (hbb : self.Blackboard = some bb) (UpdatedActors : List ActorId) :
    (∃ bb1, (OnPerceptionUpdatedImpl w self UpdatedActors).Blackboard = some bb1 ∧
      (bb1.CanAttackTarget = true ↔
        ∃ ch, ResolveTarget w (OnPerceptionUpdatedImpl w self UpdatedActors).QLTarget = some ch ∧
          ch.bAlive = true ∧ ch.bVisible = true)) ∧
    (∀ ch, ResolveTarget w self.QLTarget = some ch → ch.bAlive = false →
      ∃ bb0, (OnPerceptionUpdatedImpl w self []).Blackboard = some bb0 ∧
        bb0.CanAttackTarget = false) := by
  constructor
  · refine ⟨_, OnPerceptionUpdatedImpl_Blackboard w self bb hbb UpdatedActors, ?_⟩
    rw [OnPerceptionUpdatedImpl_QLTarget]
    exact CanAttack_iff w _
  · intro ch hch hdead
    refine ⟨_, OnPerceptionUpdatedImpl_Blackboard w self bb hbb [], ?_⟩
    simp [LoopTarget_nil, CanAttack, hch, hdead]

/-- C1 at a concrete input: the stored target is the dead player 5 and the batch names the
crate and the bot itself. -/
theorem canAttackTarget_iff_target_alive_visible_witness :
    (bot (some 5) (some ⟨true, none⟩)).Blackboard = some ⟨true, none⟩ ∧
    ((∃ bb1, (OnPerceptionUpdatedImpl scene (bot (some 5) (some ⟨true, none⟩)) [4, 3]).Blackboard
        = some bb1 ∧
      (bb1.CanAttackTarget = true ↔
        ∃ ch, ResolveTarget scene
            (OnPerceptionUpdatedImpl scene (bot (some 5) (some ⟨true, none⟩)) [4, 3]).QLTarget
            = some ch ∧
          ch.bAlive = true ∧ ch.bVisible = true)) ∧
    (∀ ch, ResolveTarget scene (bot (some 5) (some ⟨true, none⟩)).QLTarget = some ch →
      ch.bAlive = false →
      ∃ bb0, (OnPerceptionUpdatedImpl scene (bot (some 5) (some ⟨true, none⟩)) []).Blackboard
          = some bb0 ∧
        bb0.CanAttackTarget = false)) :=
  ⟨rfl, canAttackTarget_iff_target_alive_visible scene (bot (some 5) (some ⟨true, none⟩))
    ⟨true, none⟩ rfl [4, 3]⟩

/-- C2: `GetTeamAttitudeTowards` returns Neutral when the other actor is not a combat
character or its controller is absent or exposes no team identifier; otherwise it returns
Hostile exactly when the team identifier is 0 and Friendly for every other identifier.  The
result is the same for every querying controller.  The method is `const`: it is embedded as a
function that returns the attitude and nothing else, so no state can change. -/
theorem getTeamAttitudeTowards_by_team_id (self self2 : AQLAIController) (Other : AActor) :
    GetTeamAttitudeTowards self Other = GetTeamAttitudeTowards self2 Other ∧
    (Other.AsQLCharacter = none → GetTeamAttitudeTowards self Other = ETeamAttitude.Neutral) ∧
    (∀ ch, Other.AsQLCharacter = some ch →
      (ch.Controller = none ∨ ∃ c, ch.Controller = some c ∧ c.TeamAgent = none) →
      GetTeamAttitudeTowards self Other = ETeamAttitude.Neutral) ∧
    (∀ ch c teamId, Other.AsQLCharacter = some ch → ch.Controller = some c →
      c.TeamAgent = some teamId →
      (GetTeamAttitudeTowards self Other = ETeamAttitude.Hostile ↔ teamId = 0) ∧
      (teamId ≠ 0 → GetTeamAttitudeTowards self Other = ETeamAttitude.Friendly)) := by
  refine ⟨rfl, ?_, ?_, ?_⟩
  · intro h
    simp [GetTeamAttitudeTowards, h]
  · intro ch h hc
    rcases hc with hc | ⟨c, hc, ht⟩
    · simp [GetTeamAttitudeTowards, h, hc]
    · simp [GetTeamAttitudeTowards, h, hc, ht]
  · intro ch c teamId h hc ht
    by_cases h0 : teamId = 0
    · simp [GetTeamAttitudeTowards, h, hc, ht, h0]
    · simp [GetTeamAttitudeTowards, h, hc, ht, h0]

/-- C2 at concrete inputs: a player (team 0) is Hostile, another bot (team 1) is Friendly, a
crate is Neutral, and a bot whose target and blackboard differ answers the same. -/
theorem getTeamAttitudeTowards_by_team_id_witness :
    GetTeamAttitudeTowards (bot none none)
        { AsQLCharacter := some (mkCharacter 0 true true nailGun) } = ETeamAttitude.Hostile ∧
    GetTeamAttitudeTowards (bot none none)
        { AsQLCharacter := some (mkCharacter 1 true true nailGun) } = ETeamAttitude.Friendly ∧
    GetTeamAttitudeTowards (bot none none) { AsQLCharacter := none } = ETeamAttitude.Neutral ∧
    GetTeamAttitudeTowards (bot none none)
        { AsQLCharacter := some (mkCharacter 0 true true nailGun) } =
      GetTeamAttitudeTowards (bot (some 1) (some ⟨true, some 1⟩))
        { AsQLCharacter := some (mkCharacter 0 true true nailGun) } :=
  ⟨((getTeamAttitudeTowards_by_team_id (bot none none) (bot none none)
        { AsQLCharacter := some (mkCharacter 0 true true nailGun) }).2.2.2
        _ _ 0 rfl rfl rfl).1.mpr rfl,
   ((getTeamAttitudeTowards_by_team_id (bot none none) (bot none none)
        { AsQLCharacter := some (mkCharacter 1 true true nailGun) }).2.2.2
        _ _ 1 rfl rfl rfl).2 (by decide),
   (getTeamAttitudeTowards_by_team_id (bot none none) (bot none none)
        { AsQLCharacter := none }).2.1 rfl,
   (getTeamAttitudeTowards_by_team_id (bot none none) (bot (some 1) (some ⟨true, some 1⟩))
        { AsQLCharacter := some (mkCharacter 0 true true nailGun) }).1⟩

/-- C3: when the batch holds exactly one hostile agent `H` (and any other actors anywhere)
and the stimulus history of `H` holds a successful Sight stimulus, `OnPerceptionUpdatedImpl`
leaves the target reference equal to `H`, and the published flag is true exactly when `H`
is alive and visible. -/
theorem single_seen_hostile_becomes_target
    (w : World) (self : AQLAIController) (bb : UBlackboardComponent)
    (hbb : self.Blackboard = some bb) (UpdatedActors : List ActorId)
    (H : ActorId) (ch : AQLCharacter)
    (hH : H ∈ UpdatedActors) (hch : CastQLCharacter w H = some ch)
    (hhost : IsHostile w self H = true)
    (honly : ∀ a ∈ UpdatedActors, IsHostile w self a = true → a = H)
    (hsight : ∃ st ∈ self.PerceptionComponent H,
      st.SenseType = ESense.Sight ∧ st.bSuccessfullySensed = true) :
    (OnPerceptionUpdatedImpl w self UpdatedActors).QLTarget = some H ∧
    ∃ bb1, (OnPerceptionUpdatedImpl w self UpdatedActors).Blackboard = some bb1 ∧
      (bb1.CanAttackTarget = true ↔ ch.bAlive = true ∧ ch.bVisible = true) := by
  have hs : Sensed self H = true := by
    rw [Sensed_iff]
    obtain ⟨st, hst, h1, h2⟩ := hsight
    exact ⟨st, hst, Or.inl ⟨h1, h2⟩⟩
  have hT : LoopTarget w self UpdatedActors = some H := by
    unfold LoopTarget
    rw [LastHostile_eq_of_only w self UpdatedActors H hH hhost honly]
    simp [hs]
  refine ⟨by rw [OnPerceptionUpdatedImpl_QLTarget, hT], _,
    OnPerceptionUpdatedImpl_Blackboard w self bb hbb UpdatedActors, ?_⟩
  simp [hT, CanAttack, ResolveTarget, hch, and_comm]

/-- C3 at a concrete input: the batch holds a crate, the seen player 1 and the bot itself,
and the previous target was the dead player 5. -/
theorem single_seen_hostile_becomes_target_witness :
    (OnPerceptionUpdatedImpl scene (bot (some 5) (some ⟨false, some 5⟩)) [4, 1, 3]).QLTarget
      = some 1 ∧
    ∃ bb1, (OnPerceptionUpdatedImpl scene (bot (some 5) (some ⟨false, some 5⟩)) [4, 1, 3]).Blackboard
        = some bb1 ∧
      (bb1.CanAttackTarget = true ↔
        (mkCharacter 0 true true nailGun).bAlive = true ∧
        (mkCharacter 0 true true nailGun).bVisible = true) :=
  single_seen_hostile_becomes_target scene (bot (some 5) (some ⟨false, some 5⟩))
    ⟨false, some 5⟩ rfl [4, 1, 3] 1 (mkCharacter 0 true true nailGun)
    (by decide) rfl (by decide) (by decide)
    ⟨{ SenseType := ESense.Sight, bSuccessfullySensed := true, bExpired := false },
      by decide, rfl, rfl⟩

theorem LastHostile_of_tail (w : World) (self : AQLAIController)
    (front back : List ActorId) (X : ActorId) (hX : IsHostile w self X = true)
    (hback : ∀ a ∈ back, IsHostile w self a = false) :
    LastHostile w self (front ++ X :: back) = some X := by
  unfold LastHostile
  have hnil : back.filter (IsHostile w self) = [] := by
    rw [List.filter_eq_nil_iff]
    intro a ha
    simp [hback a ha]
  rw [List.filter_append, List.filter_cons_of_pos hX, hnil]
  simp

theorem LoopTarget_congr (w : World) (self : AQLAIController) (b1 b2 : List ActorId)
    (h : b1.filter (IsHostile w self) = b2.filter (IsHostile w self)) :
    LoopTarget w self b1 = LoopTarget w self b2 := by
  unfold LoopTarget LastHostile
  rw [h]

theorem OnPerceptionUpdatedImpl_PerceptionComponent (w : World) (self : AQLAIController)
    (batch : List ActorId) :
    (OnPerceptionUpdatedImpl w self batch).PerceptionComponent = self.PerceptionComponent := by
  unfold OnPerceptionUpdatedImpl
  rw [foldl_PerceiveActor]
  unfold UpdateBlackboard
  cases h : self.Blackboard <;> simp [h]

theorem LoopTarget_idem (w : World) (self : AQLAIController) (batch : List ActorId) :
    LoopTarget w (OnPerceptionUpdatedImpl w self batch) batch = LoopTarget w self batch := by
  have hl : LastHostile w (OnPerceptionUpdatedImpl w self batch) batch
      = LastHostile w self batch := rfl
  have hs : ∀ a, Sensed (OnPerceptionUpdatedImpl w self batch) a = Sensed self a := by
    intro a
    unfold Sensed
    rw [OnPerceptionUpdatedImpl_PerceptionComponent]
  unfold LoopTarget
  rw [hl, OnPerceptionUpdatedImpl_QLTarget]
  cases h : LastHostile w self batch with
  | none => simp [LoopTarget, h]
  | some L => simp [hs]

/-- C4 (as amended): when two hostile agents `A` and `B` are both sensed, `A` comes before
`B` and no hostile agent comes after `B`, the target after `OnPerceptionUpdatedImpl` is `B`.
More generally the resulting target is decided by the last hostile agent of the batch: that
agent when it is sensed, no target when it is not sensed, and the prior target when the
batch holds no hostile agent. -/
theorem target_decided_by_last_hostile
    (w : World) (self : AQLAIController) (front mid back : List ActorId) (A B : ActorId)
    (_hA : IsHostile w self A = true) (_hAs : Sensed self A = true)
    (hB : IsHostile w self B = true) (hBs : Sensed self B = true)
    (hback : ∀ a ∈ back, IsHostile w self a = false) :
    (OnPerceptionUpdatedImpl w self (front ++ A :: (mid ++ B :: back))).QLTarget = some B ∧
    ∀ batch : List ActorId,
      (OnPerceptionUpdatedImpl w self batch).QLTarget =
        match LastHostile w self batch with
        | none => self.QLTarget
        | some L => if Sensed self L then some L else none := by
  constructor
  · rw [OnPerceptionUpdatedImpl_QLTarget]
    unfold LoopTarget
    have hl : LastHostile w self (front ++ A :: (mid ++ B :: back)) = some B := by
      have := LastHostile_of_tail w self (front ++ A :: mid) back B hB hback
      simpa using this
    rw [hl]
    simp [hBs]
  · intro batch
    rw [OnPerceptionUpdatedImpl_QLTarget]
    rfl

/-- C4 (as amended) at a concrete input: the dead but damaging player 5, then the crate,
then the seen player 1, then the bot itself. -/
theorem target_decided_by_last_hostile_witness :
    (OnPerceptionUpdatedImpl scene (bot (some 2) none) ([3] ++ 5 :: ([4] ++ 1 :: [3, 4]))).QLTarget
      = some 1 ∧
    ∀ batch : List ActorId,
      (OnPerceptionUpdatedImpl scene (bot (some 2) none) batch).QLTarget =
        match LastHostile scene (bot (some 2) none) batch with
        | none => (bot (some 2) none).QLTarget
        | some L => if Sensed (bot (some 2) none) L then some L else none :=
  target_decided_by_last_hostile scene (bot (some 2) none) [3] [4] [3, 4] 5 1
    (by decide) (by decide) (by decide) (by decide) (by decide)

/-- C4 as written fails: in the batch `[1, 2]` both players are hostile, player 1 is sensed
and player 2 is not, so the last sensed hostile agent is 1, yet the update leaves no target. -/
theorem last_sensed_hostile_is_not_the_target :
    IsHostile scene (bot none none) 1 = true ∧ Sensed (bot none none) 1 = true ∧
    IsHostile scene (bot none none) 2 = true ∧ Sensed (bot none none) 2 = false ∧
    LastSensedHostile scene (bot none none) [1, 2] = some 1 ∧
    (OnPerceptionUpdatedImpl scene (bot none none) [1, 2]).QLTarget = none := by
  decide

/-- C5 (as amended): when `OnPerceptionUpdatedImpl` processes a hostile agent `X` for which
nothing is sensed, the target reference is cleared, whether `X` is the stored target or a
different agent; so after a batch whose last hostile agent is unsensed there is no target. -/
theorem unsensed_hostile_clears_target
    (w : World) (self : AQLAIController) (front back : List ActorId) (X : ActorId)
    (hX : IsHostile w self X = true) (hXs : Sensed self X = false)
    (hback : ∀ a ∈ back, IsHostile w self a = false) :
    (PerceiveActor w self X).QLTarget = none ∧
    (OnPerceptionUpdatedImpl w self (front ++ X :: back)).QLTarget = none := by
  constructor
  · rw [PerceiveActor_eq]
    simp [hX, hXs]
  · rw [OnPerceptionUpdatedImpl_QLTarget]
    unfold LoopTarget
    rw [LastHostile_of_tail w self front back X hX hback]
    simp [hXs]

/-- C5 (as amended) at a concrete input: the stored target is player 1 and the unsensed
player 2 is processed. -/
theorem unsensed_hostile_clears_target_witness :
    (bot (some 1) none).QLTarget = some 1 ∧
    (PerceiveActor scene (bot (some 1) none) 2).QLTarget = none ∧
    (OnPerceptionUpdatedImpl scene (bot (some 1) none) ([1] ++ 2 :: [3])).QLTarget = none :=
  ⟨rfl, unsensed_hostile_clears_target scene (bot (some 1) none) [1] [3] 2
    (by decide) (by decide) (by decide)⟩

/-- C5 as written fails: the stored target is player 1, the batch holds only the hostile
player 2 about whom nothing is sensed, and the update clears the target all the same. -/
theorem unsensed_other_hostile_clears_stored_target :
    (bot (some 1) none).QLTarget = some 1 ∧
    IsValid scene (bot (some 1) none).QLTarget = true ∧
    IsHostile scene (bot (some 1) none) 2 = true ∧
    Sensed (bot (some 1) none) 2 = false ∧
    (OnPerceptionUpdatedImpl scene (bot (some 1) none) [2]).QLTarget = none := by
  decide

/-- C6: when every actor of the batch is non-hostile, whatever the stimulus histories,
`OnPerceptionUpdatedImpl` leaves the target reference as it was; and for any batch, removing
its non-hostile actors (all of them, or any of them) does not change the resulting target
reference. -/
theorem non_hostile_actors_leave_target
    (w : World) (self : AQLAIController) (UpdatedActors : List ActorId)
    (hnon : ∀ a ∈ UpdatedActors, IsHostile w self a = false) :
    (OnPerceptionUpdatedImpl w self UpdatedActors).QLTarget = self.QLTarget ∧
    (∀ batch : List ActorId,
      (OnPerceptionUpdatedImpl w self (batch.filter (IsHostile w self))).QLTarget =
        (OnPerceptionUpdatedImpl w self batch).QLTarget) ∧
    (∀ b1 b2 : List ActorId,
      b1.filter (IsHostile w self) = b2.filter (IsHostile w self) →
      (OnPerceptionUpdatedImpl w self b1).QLTarget =
        (OnPerceptionUpdatedImpl w self b2).QLTarget) := by
  refine ⟨?_, ?_, ?_⟩
  · rw [OnPerceptionUpdatedImpl_QLTarget]
    have hnil : UpdatedActors.filter (IsHostile w self) = [] := by
      rw [List.filter_eq_nil_iff]
      intro a ha
      simp [hnon a ha]
    rw [LoopTarget_congr w self UpdatedActors [] (by simpa using hnil)]
    rfl
  · intro batch
    rw [OnPerceptionUpdatedImpl_QLTarget, OnPerceptionUpdatedImpl_QLTarget]
    exact LoopTarget_congr w self _ _ (by simp)
  · intro b1 b2 h
    rw [OnPerceptionUpdatedImpl_QLTarget, OnPerceptionUpdatedImpl_QLTarget]
    exact LoopTarget_congr w self _ _ h

/-- C6 at a concrete input: the stored target is player 1 and the batch holds the bot itself
(Friendly), a crate, a null pointer and the bot again. -/
theorem non_hostile_actors_leave_target_witness :
    (OnPerceptionUpdatedImpl scene (bot (some 1) none) [3, 4, 0, 3]).QLTarget
      = (bot (some 1) none).QLTarget ∧
    (∀ batch : List ActorId,
      (OnPerceptionUpdatedImpl scene (bot (some 1) none)
          (batch.filter (IsHostile scene (bot (some 1) none)))).QLTarget =
        (OnPerceptionUpdatedImpl scene (bot (some 1) none) batch).QLTarget) ∧
    (∀ b1 b2 : List ActorId,
      b1.filter (IsHostile scene (bot (some 1) none))
        = b2.filter (IsHostile scene (bot (some 1) none)) →
      (OnPerceptionUpdatedImpl scene (bot (some 1) none) b1).QLTarget =
        (OnPerceptionUpdatedImpl scene (bot (some 1) none) b2).QLTarget) :=
  non_hostile_actors_leave_target scene (bot (some 1) none) [3, 4, 0, 3] (by decide)

/-- C7: delivering the same batch a second time, with the world and the stimulus histories
unchanged, yields the same target reference and the same published flag as the first
delivery. -/
theorem redelivery_yields_same_target_state
    (w : World) (self : AQLAIController) (UpdatedActors : List ActorId) :
    (OnPerceptionUpdatedImpl w (OnPerceptionUpdatedImpl w self UpdatedActors)
        UpdatedActors).QLTarget
      = (OnPerceptionUpdatedImpl w self UpdatedActors).QLTarget ∧
    (OnPerceptionUpdatedImpl w (OnPerceptionUpdatedImpl w self UpdatedActors)
        UpdatedActors).Blackboard.map UBlackboardComponent.CanAttackTarget
      = (OnPerceptionUpdatedImpl w self UpdatedActors).Blackboard.map
          UBlackboardComponent.CanAttackTarget := by
  constructor
  · rw [OnPerceptionUpdatedImpl_QLTarget, LoopTarget_idem, OnPerceptionUpdatedImpl_QLTarget]
  · cases hbb : self.Blackboard with
    | none =>
      rw [OnPerceptionUpdatedImpl_no_Blackboard w _
        (OnPerceptionUpdatedImpl_no_Blackboard w self hbb UpdatedActors),
        OnPerceptionUpdatedImpl_no_Blackboard w self hbb]
    | some bb =>
      rw [OnPerceptionUpdatedImpl_Blackboard w _ _
        (OnPerceptionUpdatedImpl_Blackboard w self bb hbb UpdatedActors),
        OnPerceptionUpdatedImpl_Blackboard w self bb hbb, LoopTarget_idem]
      rfl

theorem ControlledBot_some (w : World) (OwnerComp : UBehaviorTreeComponent)
    (c : AQLAIController) (ch : AQLCharacter) (h : ControlledBot w OwnerComp = some (c, ch)) :
    OwnerComp.AIOwner = some (AAIController.QLAIController c) ∧
    ∃ b, c.Pawn = some b ∧ CastQLCharacter w b = some ch := by
  unfold ControlledBot at h
  split at h
  · rename_i c1 hown
    cases hp : c1.Pawn with
    | none => simp [hp] at h
    | some b =>
      cases hc : CastQLCharacter w b with
      | none => simp [hp, hc] at h
      | some ch1 =>
        simp [hp, hc] at h
        obtain ⟨rfl, rfl⟩ := h
        exact ⟨hown, b, hp, hc⟩
  · cases h

theorem ExecuteTask_no_bot (P : LeadPredictor) (U : FVector) (w : World)
    (OwnerComp : UBehaviorTreeComponent) (h : ControlledBot w OwnerComp = none) :
    ExecuteTask P U w OwnerComp = (EBTNodeResult.Failed, []) := by
  unfold ControlledBot at h
  unfold ExecuteTask
  cases hown : OwnerComp.AIOwner with
  | none => rfl
  | some o =>
    cases o with
    | OtherAIController => rfl
    | QLAIController c =>
      cases hp : c.Pawn with
      | none => simp [hp]
      | some b =>
        cases hc : CastQLCharacter w b with
        | none => simp [hp, hc]
        | some ch => simp [hown, hp, hc] at h

/-- C8 (as amended): when the controller has no current target, `ExecuteTask` performs none
of its side effects, for every combination of the other inputs; it reports Failed when the
owner component has a blackboard component, and Succeeded when the owner component has no
blackboard component (the target is then never looked at).  Whenever there is no valid
controller or no controlled character it reports Failed without side effects. -/
theorem executeTask_without_target
    (MakePredictionShot : LeadPredictor) (Indeterminate : FVector) (w : World)
    (OwnerComp : UBehaviorTreeComponent) (MyController : AQLAIController)
    (MyBotCharacter : AQLCharacter)
    (hbot : ControlledBot w OwnerComp = some (MyController, MyBotCharacter))
    (hnone : GetTarget w MyController = none) :
    (ExecuteTask MakePredictionShot Indeterminate w OwnerComp).2 = [] ∧
    (OwnerComp.BlackboardComponent.isSome = true →
      (ExecuteTask MakePredictionShot Indeterminate w OwnerComp).1 = EBTNodeResult.Failed) ∧
    (OwnerComp.BlackboardComponent = none →
      (ExecuteTask MakePredictionShot Indeterminate w OwnerComp).1 = EBTNodeResult.Succeeded) ∧
    (∀ OwnerComp2 : UBehaviorTreeComponent, ControlledBot w OwnerComp2 = none →
      ExecuteTask MakePredictionShot Indeterminate w OwnerComp2 = (EBTNodeResult.Failed, [])) := by
  obtain ⟨hown, b, hp, hc⟩ := ControlledBot_some w OwnerComp MyController MyBotCharacter hbot
  refine ⟨?_, ?_, ?_, fun oc h => ExecuteTask_no_bot _ _ w oc h⟩
  · unfold ExecuteTask
    cases hb : OwnerComp.BlackboardComponent <;> simp [hown, hp, hc, hnone]
  · intro hsome
    unfold ExecuteTask
    cases hb : OwnerComp.BlackboardComponent with
    | none => simp [hb] at hsome
    | some bb => simp [hown, hp, hc, hnone]
  · intro hb
    unfold ExecuteTask
    simp [hown, hp, hc, hb]

/-- C8 (as amended) at a concrete input: the bot has a blackboard component and no target. -/
theorem executeTask_without_target_witness :
    (ExecuteTask noIntercept ⟨7, 7, 7⟩ scene (botTree none (some ⟨false, none⟩))).2 = [] ∧
    ((botTree none (some ⟨false, none⟩)).BlackboardComponent.isSome = true →
      (ExecuteTask noIntercept ⟨7, 7, 7⟩ scene (botTree none (some ⟨false, none⟩))).1
        = EBTNodeResult.Failed) ∧
    ((botTree none (some ⟨false, none⟩)).BlackboardComponent = none →
      (ExecuteTask noIntercept ⟨7, 7, 7⟩ scene (botTree none (some ⟨false, none⟩))).1
        = EBTNodeResult.Succeeded) ∧
    (∀ OwnerComp2 : UBehaviorTreeComponent, ControlledBot scene OwnerComp2 = none →
      ExecuteTask noIntercept ⟨7, 7, 7⟩ scene OwnerComp2 = (EBTNodeResult.Failed, [])) :=
  executeTask_without_target noIntercept ⟨7, 7, 7⟩ scene (botTree none (some ⟨false, none⟩))
    (bot none (some ⟨false, none⟩)) (mkCharacter 1 true true nailGun) rfl rfl

/-- C8 as written fails: the bot has a valid controller and pawn, no target, and its owner
component has no blackboard component; `ExecuteTask` reports Succeeded, not Failed. -/
theorem no_target_without_blackboard_succeeds :
    (GetTarget scene (bot none none)).isNone = true ∧
    (botTree none none).BlackboardComponent = none ∧
    ExecuteTask noIntercept ⟨7, 7, 7⟩ scene (botTree none none)
      = (EBTNodeResult.Succeeded, []) := by
  decide

/-- C9 (as amended): with a valid controller, pawn, blackboard component, target and
weapon, `ExecuteTask` reports Succeeded.  For a projectile weapon the focal point passed to
`SetFocalPoint` is whatever the predictor left in `WhereToAim`, whether or not the predictor
reported an intercept: the report is not inspected and there is no fallback in the task, so
the focal point is the target position only when the predictor itself writes it.  For an
instant-hit weapon the focal point is the target aim-reference point `GetTargetLocation()`,
whatever the predictor is. -/
theorem executeTask_focal_point
    (MakePredictionShot : LeadPredictor) (Indeterminate : FVector) (w : World)
    (OwnerComp : UBehaviorTreeComponent) (MyController : AQLAIController)
    (MyBotCharacter Target : AQLCharacter) (bb : UBlackboardComponent)
    (CurrentWeapon : AQLWeapon)
    (hbot : ControlledBot w OwnerComp = some (MyController, MyBotCharacter))
    (hbb : OwnerComp.BlackboardComponent = some bb)
    (htarget : GetTarget w MyController = some Target)
    (hweapon : MyBotCharacter.CurrentWeaponAfter "NailGun" = some CurrentWeapon) :
    (CurrentWeapon.bProjectileWeapon = true →
      ExecuteTask MakePredictionShot Indeterminate w OwnerComp =
        (EBTNodeResult.Succeeded,
          [Effect.SetCurrentWeapon "NailGun",
           Effect.SetFocalPoint
             (MakePredictionShot Indeterminate MyBotCharacter.ActorLocation
               Target.ActorLocation Target.Velocity CurrentWeapon.ProjectileSpeed).WhereToAim,
           Effect.SetWorldRotation MyController.ControlRotation, Effect.OnFire])) ∧
    (CurrentWeapon.bProjectileWeapon = true →
      (MakePredictionShot Indeterminate MyBotCharacter.ActorLocation
        Target.ActorLocation Target.Velocity CurrentWeapon.ProjectileSpeed).WhereToAim
        = Target.ActorLocation →
      ExecuteTask MakePredictionShot Indeterminate w OwnerComp =
        (EBTNodeResult.Succeeded,
          [Effect.SetCurrentWeapon "NailGun", Effect.SetFocalPoint Target.ActorLocation,
           Effect.SetWorldRotation MyController.ControlRotation, Effect.OnFire])) ∧
    (CurrentWeapon.bProjectileWeapon = false →
      ∀ (AnyPredictor : LeadPredictor) (AnyContent : FVector),
        ExecuteTask AnyPredictor AnyContent w OwnerComp =
          (EBTNodeResult.Succeeded,
            [Effect.SetCurrentWeapon "NailGun", Effect.SetFocalPoint Target.TargetLocation,
             Effect.SetWorldRotation MyController.ControlRotation, Effect.OnFire])) := by
  obtain ⟨hown, b, hp, hc⟩ := ControlledBot_some w OwnerComp MyController MyBotCharacter hbot
  have hproj : CurrentWeapon.bProjectileWeapon = true →
      ExecuteTask MakePredictionShot Indeterminate w OwnerComp =
        (EBTNodeResult.Succeeded,
          [Effect.SetCurrentWeapon "NailGun",
           Effect.SetFocalPoint
             (MakePredictionShot Indeterminate MyBotCharacter.ActorLocation
               Target.ActorLocation Target.Velocity CurrentWeapon.ProjectileSpeed).WhereToAim,
           Effect.SetWorldRotation MyController.ControlRotation, Effect.OnFire]) := by
    intro hpw
    unfold ExecuteTask
    simp [hown, hp, hc, hbb, htarget, hweapon, hpw]
  refine ⟨hproj, ?_, ?_⟩
  · intro hpw haim
    rw [hproj hpw, haim]
  · intro hpw P U
    unfold ExecuteTask
    simp [hown, hp, hc, hbb, htarget, hweapon, hpw]

/-- C9 (as amended) at concrete inputs: the bot targets player 1, once carrying the rail gun
and once carrying the nail gun with a predictor that reports no intercept. -/
theorem executeTask_focal_point_witness :
    ExecuteTask noIntercept ⟨7, 7, 7⟩ sceneRail (botTree (some 1) (some ⟨true, some 1⟩)) =
      (EBTNodeResult.Succeeded,
        [Effect.SetCurrentWeapon "NailGun",
         Effect.SetFocalPoint (mkCharacter 0 true true nailGun).TargetLocation,
         Effect.SetWorldRotation (bot (some 1) (some ⟨true, some 1⟩)).ControlRotation,
         Effect.OnFire]) ∧
    ExecuteTask noIntercept ⟨7, 7, 7⟩ scene (botTree (some 1) (some ⟨true, some 1⟩)) =
      (EBTNodeResult.Succeeded,
        [Effect.SetCurrentWeapon "NailGun",
         Effect.SetFocalPoint
           (noIntercept ⟨7, 7, 7⟩ (mkCharacter 1 true true nailGun).ActorLocation
             (mkCharacter 0 true true nailGun).ActorLocation
             (mkCharacter 0 true true nailGun).Velocity nailGun.ProjectileSpeed).WhereToAim,
         Effect.SetWorldRotation (bot (some 1) (some ⟨true, some 1⟩)).ControlRotation,
         Effect.OnFire]) :=
  ⟨(executeTask_focal_point noIntercept ⟨7, 7, 7⟩ sceneRail
      (botTree (some 1) (some ⟨true, some 1⟩)) (bot (some 1) (some ⟨true, some 1⟩))
      (mkCharacter 1 true true railGun) (mkCharacter 0 true true nailGun) ⟨true, some 1⟩
      railGun rfl rfl rfl rfl).2.2 rfl noIntercept ⟨7, 7, 7⟩,
   (executeTask_focal_point noIntercept ⟨7, 7, 7⟩ scene
      (botTree (some 1) (some ⟨true, some 1⟩)) (bot (some 1) (some ⟨true, some 1⟩))
      (mkCharacter 1 true true nailGun) (mkCharacter 0 true true nailGun) ⟨true, some 1⟩
      nailGun rfl rfl rfl rfl).1 rfl⟩

/-- C9 as written fails: the bot carries the nail gun (a projectile weapon), the predictor
reports no intercept and writes nothing, and the focal point passed to `SetFocalPoint` is the
indeterminate content of `WhereToAim`, here (7, 7, 7), while the target stands at
(1000, 0, 0). -/
theorem failed_prediction_does_not_aim_at_target :
    (noIntercept ⟨7, 7, 7⟩ (mkCharacter 1 true true nailGun).ActorLocation
      (mkCharacter 0 true true nailGun).ActorLocation
      (mkCharacter 0 true true nailGun).Velocity nailGun.ProjectileSpeed).bFound = false ∧
    (GetTarget scene (bot (some 1) (some ⟨true, some 1⟩))).map AQLCharacter.ActorLocation
      = some ⟨1000, 0, 0⟩ ∧
    ExecuteTask noIntercept ⟨7, 7, 7⟩ scene (botTree (some 1) (some ⟨true, some 1⟩)) =
      (EBTNodeResult.Succeeded,
        [Effect.SetCurrentWeapon "NailGun", Effect.SetFocalPoint ⟨7, 7, 7⟩,
         Effect.SetWorldRotation ⟨0, 90, 0⟩, Effect.OnFire]) := by
  decide

/-- C10 (as amended): after `OnPerceptionUpdatedImpl` with a blackboard present, the
`CanAttackTarget` entry equals the flag recomputed from the controller's target reference,
and the `Target` entry equals the target reference whenever that reference is valid; when
the target reference is absent or no longer valid the `Target` entry keeps the value it had
before the call. -/
theorem blackboard_after_update
    (w : World) (self : AQLAIController) (bb : UBlackboardComponent)
    (hbb : self.Blackboard = some bb) (UpdatedActors : List ActorId) :
    ∃ bb1, (OnPerceptionUpdatedImpl w self UpdatedActors).Blackboard = some bb1 ∧
      bb1.CanAttackTarget = CanAttack w (OnPerceptionUpdatedImpl w self UpdatedActors).QLTarget ∧
      (IsValid w (OnPerceptionUpdatedImpl w self UpdatedActors).QLTarget = true →
        bb1.Target = (OnPerceptionUpdatedImpl w self UpdatedActors).QLTarget) ∧
      (IsValid w (OnPerceptionUpdatedImpl w self UpdatedActors).QLTarget = false →
        bb1.Target = bb.Target) := by
  refine ⟨_, OnPerceptionUpdatedImpl_Blackboard w self bb hbb UpdatedActors, ?_⟩
  rw [OnPerceptionUpdatedImpl_QLTarget]
  refine ⟨rfl, ?_, ?_⟩
  · intro hv
    simp [hv]
  · intro hv
    simp [hv]

/-- C10 (as amended) at a concrete input: the seen player 1 replaces the published player 2. -/
theorem blackboard_after_update_witness :
    ∃ bb1, (OnPerceptionUpdatedImpl scene (bot (some 2) (some ⟨false, some 2⟩)) [1]).Blackboard
        = some bb1 ∧
      bb1.CanAttackTarget = CanAttack scene
        (OnPerceptionUpdatedImpl scene (bot (some 2) (some ⟨false, some 2⟩)) [1]).QLTarget ∧
      (IsValid scene
          (OnPerceptionUpdatedImpl scene (bot (some 2) (some ⟨false, some 2⟩)) [1]).QLTarget
          = true →
        bb1.Target
          = (OnPerceptionUpdatedImpl scene (bot (some 2) (some ⟨false, some 2⟩)) [1]).QLTarget) ∧
      (IsValid scene
          (OnPerceptionUpdatedImpl scene (bot (some 2) (some ⟨false, some 2⟩)) [1]).QLTarget
          = false →
        bb1.Target = (⟨false, some 2⟩ : UBlackboardComponent).Target) :=
  blackboard_after_update scene (bot (some 2) (some ⟨false, some 2⟩)) ⟨false, some 2⟩ rfl [1]

/-- C10 as written fails: player 2 is the stored and published target; a batch naming
player 2, about whom nothing is sensed any more, clears the target reference, yet the
`Target` entry of the blackboard still holds player 2. -/
theorem cleared_target_stays_on_blackboard :
    (bot (some 2) (some ⟨false, some 2⟩)).QLTarget = some 2 ∧
    (OnPerceptionUpdatedImpl scene (bot (some 2) (some ⟨false, some 2⟩)) [2]).QLTarget = none ∧
    (OnPerceptionUpdatedImpl scene (bot (some 2) (some ⟨false, some 2⟩)) [2]).Blackboard
      = some ⟨false, some 2⟩ := by
  decide

end QL
